import Mathlib

/-!
Verification development for the link-shortening backend (`app.py`).

The SQLite table `urls` is embedded as a list of `Link` rows (insertion
order = `id AUTOINCREMENT` order), the table `users` as a list of `User`
rows.  Each HTTP handler of `app.py` is embedded as a pure function from
the store to the new store and the HTTP response.  SQL statements are
embedded row-by-row: `SELECT ... WHERE ...` plus `fetchone()` becomes
`List.find?` (first row in insertion order), `UPDATE urls SET views =
views + 1 WHERE slug = ?` becomes a map over the rows touching exactly
the rows whose slug matches, `INSERT` becomes an append.  Python floats
are modelled as exact rationals and Python `round(x, 2)` as
round-half-to-even on rationals.  The sha256 password hash is an external
library call and is passed in as an abstract function.
-/

namespace Backend

/-- A row of the `urls` table: slug, original_url, user_uid, views, created_at
(the `id` column is the position in the list). -/
structure Link where
  slug : String
  original_url : String
  user_uid : String
  views : Int
  created_at : Int
deriving DecidableEq, Repr

/-- The `urls` table, rows in insertion order. -/
abbrev Store := List Link

/-- A row of the `users` table. -/
structure User where
  uid : String
  username : String
  email : String
  password_hash : String
  created_at : Int
deriving DecidableEq, Repr

/-- The `users` table, rows in insertion order. -/
abbrev Users := List User

/-- A storage-layer failure (sqlite3 open/query/commit raising). -/
inductive DbErr where
  | failure (msg : String)
deriving DecidableEq, Repr

/-- Statistics payload of `GET /api/user_stats` (the `UserStats` pydantic
model, app.py lines 36-41). -/
structure UserStats where
  total_views : Int
  total_earnings : ℚ
  cpm_rate : ℚ
  referrals : Int
  links : List Link
deriving DecidableEq, Repr

/-- The HTTP responses the handlers of `app.py` produce. -/
inductive Response where
  | html (status : Nat) (body : String)
  | redirect (status : Nat) (url : String)
  | httpError (status : Nat) (detail : String)
  | jsonMsg (status : Nat) (success : Bool) (message : String)
  | jsonSlug (status : Nat) (success : Bool) (slug : String) (message : Option String)
  | jsonLogin (status : Nat) (success : Bool) (message : String) (username : String) (uid : String)
  | statsResp (status : Nat) (payload : UserStats)
deriving DecidableEq, Repr

/-- The query `SELECT ... FROM urls WHERE slug = ?` followed by `fetchone()`:
the first row whose slug matches. -/
def find_by_slug (store : Store) (slug : String) : Option Link :=
  store.find? (fun l => l.slug == slug)

/-- The statement `UPDATE urls SET views = views + 1 WHERE slug = ?` (app.py line 315):
a single atomic storage statement incrementing the views of every row whose
slug matches (the UNIQUE constraint on slug makes that at most one row). -/
def increment_views (store : Store) (slug : String) : Store :=
  store.map (fun l => if l.slug == slug then { l with views := l.views + 1 } else l)

/-- Handler of `GET /go_to_original/` plus slug (app.py lines 306-321), the Resolve step:
look the slug up; if present, increment its view counter and redirect (302)
to the original URL; otherwise raise 404. -/
def get_final_link (store : Store) (slug : String) : Store × Response :=
  match find_by_slug store slug with
  | some row => (increment_views store slug, Response.redirect 302 row.original_url)
  | none => (store, Response.httpError 404 "Original URL not found.")

/-! ### The interstitial templates

The two f-string HTML templates of `serve_ad_page_1` (app.py lines
173-247) and `serve_ad_page_2_content` (lines 252-303), split at their
interpolation points.  Literal braces (doubled in the f-strings),
apostrophes and backticks are written with \x escapes. -/

/-- Stage-1 template up to the `base_url` interpolation (app.py line 215). -/
def adPage1Pre : String :=
  "\n" ++
  "<!DOCTYPE html>\n" ++
  "<html lang=\"en\">\n" ++
  "<head>\n" ++
  "    <meta charset=\"UTF-8\">\n" ++
  "    <meta name=\"viewport\" content=\"width=device-width, initial-scale=1.0\">\n" ++
  "    <title>Please wait...</title>\n" ++
  "    <script src=\"https://cdn.tailwindcss.com\"></script>\n" ++
  "    <style>\n" ++
  "        body \x7b\n" ++
  "            margin: 0;\n" ++
  "            overflow-x: hidden;\n" ++
  "        \x7d\n" ++
  "        #ad-frame \x7b\n" ++
  "            position: fixed;\n" ++
  "            top: 0;\n" ++
  "            left: 0;\n" ++
  "            width: 100%;\n" ++
  "            height: 100%;\n" ++
  "            border: none;\n" ++
  "            z-index: 1000;\n" ++
  "        \x7d\n" ++
  "    </style>\n" ++
  "</head>\n" ++
  "<body class=\"bg-gray-50 flex items-center justify-center min-h-screen\">\n" ++
  "    <div class=\"bg-white p-8 rounded-lg shadow-xl text-center max-w-sm\">\n" ++
  "        <h1 class=\"text-2xl font-bold mb-4\">Your link is almost ready!</h1>\n" ++
  "        <p class=\"text-gray-600 mb-6\">Please wait for <span id=\"countdown\" class=\"font-bold text-red-500\">5</span> seconds.</p>\n" ++
  "\n" ++
  "        <div class=\"bg-gray-200 p-4 rounded-md mb-6\">\n" ++
  "            <p class=\"text-gray-500\">This is a placeholder for your ads.</p>\n" ++
  "        </div>\n" ++
  "\n" ++
  "        <button id=\"get-link-btn\" class=\"w-full bg-blue-600 hover:bg-blue-700 text-white font-medium py-3 rounded-lg opacity-50 cursor-not-allowed\" disabled>\n" ++
  "            Get Link\n" ++
  "        </button>\n" ++
  "    </div>\n" ++
  "\n" ++
  "    <script>\n" ++
  "        let countdown = 5;\n" ++
  "        const countdownEl = document.getElementById(\x27countdown\x27);\n" ++
  "        const getLinkBtn = document.getElementById(\x27get-link-btn\x27);\n" ++
  "        const baseUrl = \""

/-- Stage-1 template between the `base_url` and the `slug` interpolation
(app.py lines 215-240). -/
def adPage1Mid : String :=
  "\";\n" ++
  "\n" ++
  "        // Add message listener for iframe communication\n" ++
  "        window.addEventListener(\x27message\x27, function(event) \x7b\n" ++
  "            if (event.data.action === \x27redirect\x27) \x7b\n" ++
  "                window.location.href = \x60$\x7bbaseUrl\x7d/go_to_original/$\x7bevent.data.slug\x7d\x60;\n" ++
  "            \x7d\n" ++
  "        \x7d);\n" ++
  "\n" ++
  "        const timer = setInterval(() => \x7b\n" ++
  "            countdown--;\n" ++
  "            countdownEl.textContent = countdown;\n" ++
  "            if (countdown <= 0) \x7b\n" ++
  "                clearInterval(timer);\n" ++
  "                getLinkBtn.disabled = false;\n" ++
  "                getLinkBtn.classList.remove(\x27opacity-50\x27, \x27cursor-not-allowed\x27);\n" ++
  "                getLinkBtn.classList.add(\x27hover:bg-blue-700\x27);\n" ++
  "                getLinkBtn.textContent = \x27Get Link\x27;\n" ++
  "            \x7d\n" ++
  "        \x7d, 1000);\n" ++
  "\n" ++
  "        getLinkBtn.addEventListener(\x27click\x27, () => \x7b\n" ++
  "            // Create fullscreen iframe to load second ad page\n" ++
  "            const iframe = document.createElement(\x27iframe\x27);\n" ++
  "            iframe.id = \x27ad-frame\x27;\n" ++
  "            iframe.src = \x60$\x7bbaseUrl\x7d/ad_page2_content/"

/-- Stage-1 template after the `slug` interpolation (app.py lines 240-247). -/
def adPage1Post : String :=
  "\x60;\n" ++
  "            document.body.innerHTML = \x27\x27;\n" ++
  "            document.body.appendChild(iframe);\n" ++
  "        \x7d);\n" ++
  "    </script>\n" ++
  "</body>\n" ++
  "</html>\n"

/-- The rendered Stage-1 interstitial: the template with `base_url` and
`slug` interpolated (app.py lines 173-247). -/
def adPage1Html (base_url slug : String) : String :=
  adPage1Pre ++ base_url ++ adPage1Mid ++ slug ++ adPage1Post

/-- Handler of `GET /` plus slug (app.py lines 158-248), the Enter step: look the slug up;
404 if absent, otherwise a 200 HTML response rendering the Stage-1
interstitial.  `base_url` stands for `str(request.base_url).rstrip` of the
trailing slash. -/
def serve_ad_page_1 (store : Store) (base_url slug : String) : Store × Response :=
  match find_by_slug store slug with
  | some _ => (store, Response.html 200 (adPage1Html base_url slug))
  | none => (store, Response.httpError 404 "Slug not found.")

/-- Stage-2 template up to the first `slug` interpolation (app.py line 276). -/
def adPage2Pre : String :=
  "\n" ++
  "<!DOCTYPE html>\n" ++
  "<html lang=\"en\">\n" ++
  "<head>\n" ++
  "    <meta charset=\"UTF-8\">\n" ++
  "    <meta name=\"viewport\" content=\"width=device-width, initial-scale=1.0\">\n" ++
  "    <title>Final Step!</title>\n" ++
  "    <script src=\"https://cdn.tailwindcss.com\"></script>\n" ++
  "</head>\n" ++
  "<body class=\"bg-gray-50 flex items-center justify-center min-h-screen\">\n" ++
  "    <div class=\"bg-white p-8 rounded-lg shadow-xl text-center max-w-sm\">\n" ++
  "        <h1 class=\"text-2xl font-bold mb-4\">You are almost there!</h1>\n" ++
  "        <p class=\"text-gray-600 mb-6\">Please wait another <span id=\"countdown_2\" class=\"font-bold text-red-500\">5</span> seconds.</p>\n" ++
  "\n" ++
  "        <div class=\"bg-gray-200 p-4 rounded-md mb-6\">\n" ++
  "            <p class=\"text-gray-500\">This is a placeholder for your second ad.</p>\n" ++
  "        </div>\n" ++
  "\n" ++
  "        <button id=\"get-final-link-btn\" class=\"w-full bg-blue-600 hover:bg-blue-700 text-white font-medium py-3 rounded-lg opacity-50 cursor-not-allowed\" disabled>\n" ++
  "            Get Final Link\n" ++
  "        </button>\n" ++
  "    </div>\n" ++
  "\n" ++
  "    <script>\n" ++
  "        const slug = \""

/-- Stage-2 template between its two `slug` interpolations (app.py lines
276-297). -/
def adPage2Mid : String :=
  "\";\n" ++
  "        let countdown_2 = 5;\n" ++
  "        const countdownEl_2 = document.getElementById(\x27countdown_2\x27);\n" ++
  "        const getFinalLinkBtn = document.getElementById(\x27get-final-link-btn\x27);\n" ++
  "\n" ++
  "        const timer_2 = setInterval(() => \x7b\n" ++
  "            countdown_2--;\n" ++
  "            countdownEl_2.textContent = countdown_2;\n" ++
  "            if (countdown_2 <= 0) \x7b\n" ++
  "                clearInterval(timer_2);\n" ++
  "                getFinalLinkBtn.disabled = false;\n" ++
  "                getFinalLinkBtn.classList.remove(\x27opacity-50\x27, \x27cursor-not-allowed\x27);\n" ++
  "                getFinalLinkBtn.classList.add(\x27hover:bg-blue-700\x27);\n" ++
  "                getFinalLinkBtn.textContent = \x27Get Final Link\x27;\n" ++
  "            \x7d\n" ++
  "        \x7d, 1000);\n" ++
  "\n" ++
  "        getFinalLinkBtn.addEventListener(\x27click\x27, () => \x7b\n" ++
  "            // Tell parent window to redirect to final URL\n" ++
  "            window.parent.postMessage(\x7b\n" ++
  "                action: \x27redirect\x27,\n" ++
  "                slug: \""

/-- Stage-2 template after the second `slug` interpolation (app.py lines
297-303). -/
def adPage2Post : String :=
  "\"\n" ++
  "            \x7d, \x27*\x27);\n" ++
  "        \x7d);\n" ++
  "    </script>\n" ++
  "</body>\n" ++
  "</html>\n"

/-- The rendered Stage-2 interstitial (app.py lines 252-303). -/
def adPage2Html (slug : String) : String :=
  adPage2Pre ++ slug ++ adPage2Mid ++ slug ++ adPage2Post

/-- Handler of `GET /ad_page2_content/` plus slug (app.py lines 250-304), the Advance
step.  The handler body issues no database statement at all — it only
formats the template with the path parameter — so its embedding does not
even take the store. -/
def serve_ad_page_2_content (slug : String) : Response :=
  Response.html 200 (adPage2Html slug)

/-- The query `SELECT slug FROM urls WHERE original_url = ? AND user_uid = ?` plus
`fetchone()` (app.py line 143). -/
def find_by_url_and_owner (store : Store) (url user_uid : String) : Option Link :=
  store.find? (fun l => l.original_url == url && l.user_uid == user_uid)

/-- Handler of `POST /shorten_url` (app.py lines 138-155), success path: if a row for
the same (url, owner) pair exists, answer with its slug and leave the
store alone; otherwise insert a fresh row with `views = 0`.  `new_slug`
stands for the uuid4-generated token of `generate_slug()` and `now` for
`int(time.time())`. -/
def shorten_url (store : Store) (url user_uid new_slug : String) (now : Int) : Store × Response :=
  match find_by_url_and_owner store url user_uid with
  | some existing =>
      (store, Response.jsonSlug 200 true existing.slug (some "URL already shortened."))
  | none =>
      (store ++ [Link.mk new_slug url user_uid 0 now],
        Response.jsonSlug 200 true new_slug none)

/-- Round-half-to-even to an integer, the rounding used by the Python `round` builtin
(floats modelled as exact rationals). -/
def roundHalfToEven (x : ℚ) : ℤ :=
  if x - (x.floor : ℚ) < 1 / 2 then x.floor
  else if 1 / 2 < x - (x.floor : ℚ) then x.floor + 1
  else if x.floor % 2 = 0 then x.floor else x.floor + 1

/-- The Python expression `round(x, 2)`. -/
def pyRound2 (x : ℚ) : ℚ :=
  (roundHalfToEven (x * 100) : ℚ) / 100

/-- The rows of `urls` belonging to one user (`WHERE user_uid = ?`). -/
def user_links (store : Store) (user_uid : String) : List Link :=
  store.filter (fun l => l.user_uid == user_uid)

/-- The query `SELECT SUM(views) FROM urls WHERE user_uid = ?` (app.py line 330):
SQL `SUM` yields NULL (`none`) on an empty row set, else the sum. -/
def sum_views_sql (store : Store) (user_uid : String) : Option Int :=
  if (user_links store user_uid).isEmpty then none
  else some ((user_links store user_uid).map Link.views).sum

/-- The assignment `total_views = cursor.fetchone()[...] or 0` (app.py line 331): the
NULL sum is coalesced to 0. -/
def total_views_of (store : Store) (user_uid : String) : Int :=
  match sum_views_sql store user_uid with
  | none => 0
  | some v => v

/-- Handler of `GET /api/user_stats` (app.py lines 324-347): the NULL sum is coalesced
by `or 0`, earnings are `(total_views / 1000) * cpm` with `cpm = 4.00`,
rounded to two decimals; the links come back sorted by `created_at DESC`.
A pure read: the store is not touched. -/
def get_user_stats (store : Store) (user_uid : String) : UserStats :=
  { total_views := total_views_of store user_uid
    total_earnings := pyRound2 (((total_views_of store user_uid : ℚ)) / 1000 * 4)
    cpm_rate := 4
    referrals := 0
    links := (user_links store user_uid).mergeSort
      (fun a b => decide (b.created_at ≤ a.created_at)) }

/-- Handler of `POST /register_user_data` (app.py lines 95-117), success path.
`password_hash` stands for `hash_password(user.password)`, `uid` for the
generated uuid4 and `now` for `int(time.time())`.  The lookup is
`SELECT * FROM users WHERE username = ? OR email = ?`. -/
def register_user_data (users : Users) (username email password_hash uid : String)
    (now : Int) : Users × Response :=
  match users.find? (fun u => u.username == username || u.email == email) with
  | some existing =>
      if existing.username == username then
        (users, Response.jsonMsg 200 false "Username already taken.")
      else if existing.email == email then
        (users, Response.jsonMsg 200 false "Email already in use.")
      else
        (users ++ [User.mk uid username email password_hash now],
          Response.jsonMsg 200 true "Registration successful!")
  | none =>
      (users ++ [User.mk uid username email password_hash now],
        Response.jsonMsg 200 true "Registration successful!")

/-- Handler of `POST /login_user_data` (app.py lines 119-136), success path.
`hp` is the sha256 `hash_password` function. -/
def login_user_data (users : Users) (hp : String → String)
    (username password : String) : Response :=
  match users.find? (fun u => u.username == username) with
  | none => Response.jsonMsg 200 false "Invalid username or password."
  | some found =>
      if found.password_hash != hp password then
        Response.jsonMsg 200 false "Invalid username or password."
      else
        Response.jsonLogin 200 true "Login successful!" found.username found.uid

/-! ### Endpoint wrappers over a fallible storage layer

`db` is the outcome of opening/querying the database.  Endpoints whose
handler body sits inside `try ... except Exception` (register, login,
shorten, user_stats) turn a storage failure into a fixed 500 response;
the two flow handlers `serve_ad_page_1` and `get_final_link` have no
handler around their storage access, so the failure propagates. -/

/-- Wrapper for `POST /register_user_data`: broad `except` → generic 500
(app.py lines 116-117). -/
def register_user_data_endpoint (db : Except DbErr Users)
    (username email password_hash uid : String) (now : Int) : Except DbErr Response :=
  match db with
  | Except.ok users =>
      Except.ok (register_user_data users username email password_hash uid now).2
  | Except.error _ =>
      Except.ok (Response.jsonMsg 500 false "An unexpected error occurred.")

/-- Wrapper for `POST /login_user_data`: broad `except` → generic 500
(app.py lines 135-136). -/
def login_user_data_endpoint (db : Except DbErr Users) (hp : String → String)
    (username password : String) : Except DbErr Response :=
  match db with
  | Except.ok users => Except.ok (login_user_data users hp username password)
  | Except.error _ =>
      Except.ok (Response.jsonMsg 500 false "An unexpected error occurred.")

/-- Wrapper for `POST /shorten_url`: broad `except` → generic 500
(app.py lines 154-155). -/
def shorten_url_endpoint (db : Except DbErr Store)
    (url user_uid new_slug : String) (now : Int) : Except DbErr Response :=
  match db with
  | Except.ok store => Except.ok (shorten_url store url user_uid new_slug now).2
  | Except.error _ => Except.ok (Response.jsonMsg 500 false "URL shortening failed.")

/-- Wrapper for `GET /{slug}`: no `try` around the storage access, a
storage failure propagates out of the handler. -/
def serve_ad_page_1_endpoint (db : Except DbErr Store)
    (base_url slug : String) : Except DbErr Response :=
  match db with
  | Except.ok store => Except.ok (serve_ad_page_1 store base_url slug).2
  | Except.error e => Except.error e

/-- Wrapper for `GET /go_to_original/{slug}`: no `try` around the storage
access, a storage failure propagates out of the handler. -/
def get_final_link_endpoint (db : Except DbErr Store)
    (slug : String) : Except DbErr Response :=
  match db with
  | Except.ok store => Except.ok (get_final_link store slug).2
  | Except.error e => Except.error e

/-- Wrapper for `GET /api/user_stats`: broad `except` → HTTPException 500
(app.py lines 348-349). -/
def get_user_stats_endpoint (db : Except DbErr Store)
    (user_uid : String) : Except DbErr Response :=
  match db with
  | Except.ok store => Except.ok (Response.statsResp 200 (get_user_stats store user_uid))
  | Except.error _ => Except.ok (Response.httpError 500 "Error fetching user stats.")

/-! ### Concurrency model for the view counter

A successful Resolve call issues two storage statements: a read-only
`SELECT original_url ... WHERE slug = ?` and the atomic
`UPDATE urls SET views = views + 1 WHERE slug = ?`.  The update is a
single storage statement performing its read-modify-write inside the
storage layer (the handler never reads `views` into application code),
so a concurrent execution of several Resolve calls is an arbitrary
interleaving of such atomic events. -/

/-- One atomic storage event issued by a Resolve call. -/
inductive Event where
  | lookup (slug : String)
  | incr (slug : String)
deriving DecidableEq, Repr

/-- Effect of one atomic storage event on the store. -/
def apply_event (store : Store) : Event → Store
  | Event.lookup _ => store
  | Event.incr s => increment_views store s

/-- Effect of an interleaved schedule of atomic storage events. -/
def apply_events (store : Store) (es : List Event) : Store :=
  es.foldl apply_event store

/-! ### The operations of the service, as store transformers -/

/-- One request to any of the handlers touching the `urls` table. -/
inductive Op where
  | enter (base_url slug : String)
  | advance (slug : String)
  | resolve (slug : String)
  | shorten (url user_uid new_slug : String) (now : Int)
  | stats (user_uid : String)
deriving DecidableEq, Repr

/-- The store after one request. -/
def apply_op (store : Store) : Op → Store
  | Op.enter b s => (serve_ad_page_1 store b s).1
  | Op.advance _ => store
  | Op.resolve s => (get_final_link store s).1
  | Op.shorten url uid ns now => (shorten_url store url uid ns now).1
  | Op.stats _ => store

/-- The store after a sequence of requests. -/
def apply_ops (store : Store) (ops : List Op) : Store :=
  ops.foldl apply_op store

/-! ## Theorems -/

/-- Decomposition of `find?`: a found row splits the list into a non-matching
front part, the row, and a rest. -/
theorem find_by_slug_decomp (store : Store) (slug : String) (r : Link)
    (h : find_by_slug store slug = some r) :
    r.slug = slug ∧ ∃ pre post, store = pre ++ r :: post ∧ ∀ l ∈ pre, l.slug ≠ slug := by
  induction store with
  | nil => simp [find_by_slug] at h
  | cons hd tl ih =>
    by_cases hh : hd.slug = slug
    · rw [find_by_slug, List.find?_cons_of_pos _ (by simp [hh])] at h
      cases h
      exact ⟨hh, [], tl, rfl, by simp⟩
    · rw [find_by_slug, List.find?_cons_of_neg _ (by simp [hh])] at h
      obtain ⟨hs, pre, post, hsplit, hpre⟩ := ih h
      exact ⟨hs, hd :: pre, post, by rw [hsplit]; rfl, by
        intro l hl
        rcases List.mem_cons.mp hl with rfl | hl
        · exact hh
        · exact hpre l hl⟩

/-- Rows whose slug does not match are untouched by the increment. -/
theorem increment_views_of_not_mem (l : List Link) (slug : String)
    (h : ∀ x ∈ l, x.slug ≠ slug) : increment_views l slug = l := by
  induction l with
  | nil => rfl
  | cons hd tl ih =>
    have hhd : ¬ hd.slug = slug := h hd (List.mem_cons_self hd tl)
    have htl := ih (fun x hx => h x (List.mem_cons_of_mem hd hx))
    rw [increment_views, List.map_cons] at *
    rw [if_neg (by simp [hhd]), htl]

/-- The increment distributes over append. -/
theorem increment_views_append (a b : List Link) (slug : String) :
    increment_views (a ++ b) slug = increment_views a slug ++ increment_views b slug := by
  simp [increment_views]

/-- C1: on a store whose slugs are pairwise distinct (the UNIQUE constraint
on `urls.slug`), resolving a stored slug returns a 302 redirect to that
original URL of that row, and the new store is the old one where exactly
the view counter of that row is raised by one — every other row, and every other field
of that row, is unchanged. -/
theorem resolve_hit_increments_once (store : Store) (S : String) (r : Link)
    (huniq : store.Pairwise (fun a b => a.slug ≠ b.slug))
    (hfind : find_by_slug store S = some r) :
    (get_final_link store S).2 = Response.redirect 302 r.original_url ∧
    ∃ pre post, store = pre ++ r :: post ∧
      (get_final_link store S).1 =
        pre ++ Link.mk r.slug r.original_url r.user_uid (r.views + 1) r.created_at :: post := by
  obtain ⟨hs, pre, post, hsplit, hpre⟩ := find_by_slug_decomp store S r hfind
  constructor
  · rw [get_final_link, hfind]
  · refine ⟨pre, post, hsplit, ?_⟩
    rw [get_final_link, hfind]
    have hpost : ∀ l ∈ post, l.slug ≠ S := by
      intro l hl
      have := (List.pairwise_append.mp (hsplit ▸ huniq)).2.1
      have hr := (List.pairwise_cons.mp this).1 l hl
      rw [← hs]
      exact fun hc => hr hc.symm
    simp only [hsplit, increment_views_append, increment_views_of_not_mem pre S hpre]
    rw [increment_views, List.map_cons, if_pos (by simp [hs]),
      show List.map _ post = increment_views post S from rfl,
      increment_views_of_not_mem post S hpost]

/-- C2: resolving a slug absent from the store returns a 404 and leaves the
store — in particular every view counter — completely unchanged. -/
theorem resolve_miss_is_404_pure (store : Store) (S : String)
    (h : find_by_slug store S = none) :
    get_final_link store S = (store, Response.httpError 404 "Original URL not found.") := by
  rw [get_final_link, h]

/-- Witness for C1 at a concrete two-row store. -/
theorem resolve_hit_increments_once_witness :
    (get_final_link [Link.mk "abc123" "https://example.com" "u1" 7 100,
        Link.mk "zzz" "https://other.org" "u2" 3 200] "abc123").2 =
      Response.redirect 302 "https://example.com" ∧
    ∃ pre post,
      [Link.mk "abc123" "https://example.com" "u1" 7 100,
        Link.mk "zzz" "https://other.org" "u2" 3 200] =
        pre ++ Link.mk "abc123" "https://example.com" "u1" 7 100 :: post ∧
      (get_final_link [Link.mk "abc123" "https://example.com" "u1" 7 100,
        Link.mk "zzz" "https://other.org" "u2" 3 200] "abc123").1 =
        pre ++ Link.mk "abc123" "https://example.com" "u1" (7 + 1) 100 :: post :=
  resolve_hit_increments_once
    [Link.mk "abc123" "https://example.com" "u1" 7 100,
      Link.mk "zzz" "https://other.org" "u2" 3 200] "abc123"
    (Link.mk "abc123" "https://example.com" "u1" 7 100) (by decide) (by decide)

/-- Witness for C2 at a concrete store missing the slug. -/
theorem resolve_miss_is_404_pure_witness :
    get_final_link [Link.mk "abc123" "https://example.com" "u1" 7 100] "nope" =
      ([Link.mk "abc123" "https://example.com" "u1" 7 100],
        Response.httpError 404 "Original URL not found.") :=
  resolve_miss_is_404_pure [Link.mk "abc123" "https://example.com" "u1" 7 100] "nope" (by decide)

/-- Incrementing commutes with lookup of the same slug: the first matching
row is the first matching row with its counter raised. -/
theorem find_by_slug_increment (store : Store) (s : String) :
    find_by_slug (increment_views store s) s =
      (find_by_slug store s).map (fun l => { l with views := l.views + 1 }) := by
  induction store with
  | nil => rfl
  | cons hd tl ih =>
    by_cases hh : hd.slug = s
    · rw [increment_views, List.map_cons, if_pos (by simp [hh])]
      rw [find_by_slug, List.find?_cons_of_pos _ (by simp [hh]),
        find_by_slug, List.find?_cons_of_pos _ (by simp [hh])]
      rfl
    · rw [increment_views, List.map_cons, if_neg (by simp [hh])]
      rw [find_by_slug, List.find?_cons_of_neg _ (by simp [hh]),
        find_by_slug, List.find?_cons_of_neg _ (by simp [hh])]
      exact ih

/-- Any schedule built from lookups and increments of slug `S` raises the
views of the row of `S` by exactly the number of increment events. -/
theorem find_by_slug_apply_events (es : List Event) (store : Store) (S : String) (r : Link)
    (hfind : find_by_slug store S = some r)
    (hmem : ∀ e ∈ es, e = Event.lookup S ∨ e = Event.incr S) :
    ∃ q, find_by_slug (apply_events store es) S = some q ∧
      q.views = r.views + (es.countP (fun e => e == Event.incr S) : Int) := by
  induction es generalizing store r with
  | nil => exact ⟨r, hfind, by simp [apply_events]⟩
  | cons e es ih =>
    have hes : ∀ x ∈ es, x = Event.lookup S ∨ x = Event.incr S :=
      fun x hx => hmem x (List.mem_cons_of_mem e hx)
    rcases hmem e (List.mem_cons_self e es) with he | he
    · subst he
      obtain ⟨q, hq, hv⟩ := ih store r hfind hes
      refine ⟨q, by simpa [apply_events, apply_event] using hq, ?_⟩
      rw [hv, List.countP_cons]
      simp
    · subst he
      have hfind2 : find_by_slug (increment_views store S) S =
          some { r with views := r.views + 1 } := by
        rw [find_by_slug_increment, hfind]; rfl
      obtain ⟨q, hq, hv⟩ := ih (increment_views store S) _ hfind2 hes
      refine ⟨q, by simpa [apply_events, apply_event] using hq, ?_⟩
      rw [hv, List.countP_cons]
      simp only [beq_self_eq_true, if_pos]
      push_cast
      ring

/-- C3: for a slug stored with `views = 0`, any interleaving of the atomic
storage events of N Resolve(S) calls (N lookups and N counter increments,
in any order) leaves `views = N`: the storage-level `UPDATE ... SET views
= views + 1` loses no update. -/
theorem concurrent_resolves_count_exactly (store : Store) (S : String) (r : Link)
    (N : Nat) (es : List Event)
    (hfind : find_by_slug store S = some r) (h0 : r.views = 0)
    (hmem : ∀ e ∈ es, e = Event.lookup S ∨ e = Event.incr S)
    (hN : es.countP (fun e => e == Event.incr S) = N) :
    ∃ q, find_by_slug (apply_events store es) S = some q ∧ q.views = (N : Int) := by
  obtain ⟨q, hq, hv⟩ := find_by_slug_apply_events es store S r hfind hmem
  exact ⟨q, hq, by rw [hv, h0, hN]; ring⟩

/-- Witness for C3: two interleaved Resolve calls on a fresh slug leave
`views = 2`. -/
theorem concurrent_resolves_count_exactly_witness :
    ∃ q, find_by_slug
        (apply_events [Link.mk "abc" "https://example.com" "u1" 0 50]
          [Event.lookup "abc", Event.lookup "abc", Event.incr "abc", Event.incr "abc"])
        "abc" = some q ∧ q.views = ((2 : Nat) : Int) :=
  concurrent_resolves_count_exactly [Link.mk "abc" "https://example.com" "u1" 0 50] "abc"
    (Link.mk "abc" "https://example.com" "u1" 0 50) 2
    [Event.lookup "abc", Event.lookup "abc", Event.incr "abc", Event.incr "abc"]
    (by decide) (by decide) (by decide) (by decide)

/-- C5: entering an unknown slug yields a bare 404 and no interstitial
body; entering a stored slug yields a 200 whose body is the Stage-1
interstitial, which embeds both the base URL and the slug.  In both cases
the store is untouched. -/
theorem enter_404_or_interstitial (store : Store) (base_url S : String) :
    (find_by_slug store S = none →
      serve_ad_page_1 store base_url S = (store, Response.httpError 404 "Slug not found.")) ∧
    (find_by_slug store S ≠ none →
      serve_ad_page_1 store base_url S = (store, Response.html 200 (adPage1Html base_url S)) ∧
      (∃ p q, adPage1Html base_url S = p ++ base_url ++ q) ∧
      (∃ p q, adPage1Html base_url S = p ++ S ++ q)) := by
  constructor
  · intro h
    rw [serve_ad_page_1, h]
  · intro h
    obtain ⟨r, hr⟩ := Option.ne_none_iff_exists.mp h
    refine ⟨by rw [serve_ad_page_1, ← hr], ?_, ?_⟩
    · exact ⟨adPage1Pre, adPage1Mid ++ S ++ adPage1Post,
        by simp only [adPage1Html, String.append_assoc]⟩
    · exact ⟨adPage1Pre ++ base_url ++ adPage1Mid, adPage1Post,
        by simp only [adPage1Html, String.append_assoc]⟩

/-- Witness for C5: both branches at concrete stores. -/
theorem enter_404_or_interstitial_witness :
    serve_ad_page_1 [] "https://b" "zzz" = ([], Response.httpError 404 "Slug not found.") ∧
    serve_ad_page_1 [Link.mk "abc" "https://example.com" "u1" 0 50] "https://b" "abc"
      = ([Link.mk "abc" "https://example.com" "u1" 0 50],
          Response.html 200 (adPage1Html "https://b" "abc")) :=
  ⟨(enter_404_or_interstitial [] "https://b" "zzz").1 rfl,
    ((enter_404_or_interstitial [Link.mk "abc" "https://example.com" "u1" 0 50]
      "https://b" "abc").2 (by decide)).1⟩

/-- C6: the Advance step answers 200 with the Stage-2 content for every
string, stored slug or not — its handler issues no store lookup (its
embedding does not even take the store) — and a request to it leaves the
store unchanged; the content references the slug. -/
theorem advance_always_renders (store : Store) (S : String) :
    apply_op store (Op.advance S) = store ∧
    serve_ad_page_2_content S = Response.html 200 (adPage2Html S) ∧
    ∃ p q, adPage2Html S = p ++ S ++ q :=
  ⟨rfl, rfl, ⟨adPage2Pre, adPage2Mid ++ S ++ adPage2Post,
    by simp only [adPage2Html, String.append_assoc]⟩⟩

/-- C7: shortening is idempotent per (url, owner) pair: when a row for the
pair already exists, the handler answers with the slug of that row and the
store is returned unchanged — no insertion happens. -/
theorem shorten_url_idempotent (store : Store) (url user_uid new_slug : String)
    (now : Int) (r : Link)
    (h : find_by_url_and_owner store url user_uid = some r) :
    shorten_url store url user_uid new_slug now =
      (store, Response.jsonSlug 200 true r.slug (some "URL already shortened.")) := by
  rw [shorten_url, h]

/-- Witness for C7: re-shortening a stored (url, owner) pair. -/
theorem shorten_url_idempotent_witness :
    shorten_url [Link.mk "s1" "https://x.com" "u1" 5 10] "https://x.com" "u1" "s2" 20 =
      ([Link.mk "s1" "https://x.com" "u1" 5 10],
        Response.jsonSlug 200 true "s1" (some "URL already shortened.")) :=
  shorten_url_idempotent [Link.mk "s1" "https://x.com" "u1" 5 10]
    "https://x.com" "u1" "s2" 20 (Link.mk "s1" "https://x.com" "u1" 5 10) (by decide)

/-- C9: when the storage layer fails, the registration, login and shorten
handlers catch the failure and answer a fixed generic 500 message, while
the two core flow handlers (Enter and Resolve) have no handler around
their storage access and let the failure propagate. -/
theorem storage_failure_handling (e : DbErr) (hp : String → String)
    (username email password_hash uid url user_uid new_slug base_url S password : String)
    (now : Int) :
    register_user_data_endpoint (Except.error e) username email password_hash uid now =
      Except.ok (Response.jsonMsg 500 false "An unexpected error occurred.") ∧
    login_user_data_endpoint (Except.error e) hp username password =
      Except.ok (Response.jsonMsg 500 false "An unexpected error occurred.") ∧
    shorten_url_endpoint (Except.error e) url user_uid new_slug now =
      Except.ok (Response.jsonMsg 500 false "URL shortening failed.") ∧
    serve_ad_page_1_endpoint (Except.error e) base_url S = Except.error e ∧
    get_final_link_endpoint (Except.error e) S = Except.error e :=
  ⟨rfl, rfl, rfl, rfl, rfl⟩

/-- The Enter handler never changes the store. -/
theorem serve_ad_page_1_fst (store : Store) (b s : String) :
    (serve_ad_page_1 store b s).1 = store := by
  rw [serve_ad_page_1]
  cases find_by_slug store s <;> rfl

/-- The Resolve handler either leaves the store alone (404) or performs the
counter increment. -/
theorem get_final_link_fst (store : Store) (s : String) :
    (get_final_link store s).1 = store ∨
    (get_final_link store s).1 = increment_views store s := by
  rw [get_final_link]
  cases find_by_slug store s
  · exact Or.inl rfl
  · exact Or.inr rfl

/-- The shorten handler either leaves the store alone (dedup hit) or
appends one fresh row with `views = 0`. -/
theorem shorten_url_fst (store : Store) (url uid ns : String) (now : Int) :
    (shorten_url store url uid ns now).1 = store ∨
    (shorten_url store url uid ns now).1 = store ++ [Link.mk ns url uid 0 now] := by
  rw [shorten_url]
  cases find_by_url_and_owner store url uid
  · exact Or.inr rfl
  · exact Or.inl rfl

/-- The increment keeps the number of rows. -/
theorem increment_views_length (store : Store) (s : String) :
    (increment_views store s).length = store.length := by
  simp [increment_views]

/-- No request removes rows. -/
theorem apply_op_length (store : Store) (op : Op) :
    store.length ≤ (apply_op store op).length := by
  cases op with
  | enter b s => rw [apply_op, serve_ad_page_1_fst]
  | advance s => exact le_refl _
  | resolve s =>
      rw [apply_op]
      rcases get_final_link_fst store s with h | h
      · rw [h]
      · rw [h, increment_views_length]
  | shorten url uid ns now =>
      rw [apply_op]
      rcases shorten_url_fst store url uid ns now with h | h
      · rw [h]
      · rw [h]
        simp
  | stats u => exact le_refl _

/-- No request lowers the view counter of a row already in the store. -/
theorem apply_op_views_mono (store : Store) (op : Op) (i : Nat) (a b : Link)
    (ha : store[i]? = some a) (hb : (apply_op store op)[i]? = some b) :
    a.views ≤ b.views := by
  cases op with
  | enter bu s =>
      rw [apply_op, serve_ad_page_1_fst, ha] at hb
      cases hb
      exact le_refl _
  | advance s =>
      rw [apply_op, ha] at hb
      cases hb
      exact le_refl _
  | resolve s =>
      rw [apply_op] at hb
      rcases get_final_link_fst store s with h | h <;> rw [h] at hb
      · rw [ha] at hb
        cases hb
        exact le_refl _
      · rw [increment_views, List.getElem?_map, ha] at hb
        simp only [Option.map_some'] at hb
        cases hb
        by_cases hs : a.slug = s
        · rw [if_pos (by simp [hs])]
          show a.views ≤ a.views + 1
          omega
        · rw [if_neg (by simp [hs])]
  | shorten url uid ns now =>
      rw [apply_op] at hb
      rcases shorten_url_fst store url uid ns now with h | h <;> rw [h] at hb
      · rw [ha] at hb
        cases hb
        exact le_refl _
      · have hlt : i < store.length := by
          rcases List.getElem?_eq_some_iff.mp ha with ⟨hl, _⟩
          exact hl
        rw [List.getElem?_append_left hlt, ha] at hb
        cases hb
        exact le_refl _
  | stats u =>
      rw [apply_op, ha] at hb
      cases hb
      exact le_refl _

/-- A row a request adds beyond the old length starts with `views = 0`. -/
theorem apply_op_new_zero (store : Store) (op : Op) (i : Nat) (b : Link)
    (hi : store.length ≤ i) (hb : (apply_op store op)[i]? = some b) :
    b.views = 0 := by
  cases op with
  | enter bu s =>
      rw [apply_op, serve_ad_page_1_fst, List.getElem?_eq_none hi] at hb
      cases hb
  | advance s =>
      rw [apply_op, List.getElem?_eq_none hi] at hb
      cases hb
  | resolve s =>
      rw [apply_op] at hb
      rcases get_final_link_fst store s with h | h <;> rw [h] at hb
      · rw [List.getElem?_eq_none hi] at hb
        cases hb
      · rw [List.getElem?_eq_none (by rw [increment_views_length]; exact hi)] at hb
        cases hb
  | shorten url uid ns now =>
      rw [apply_op] at hb
      rcases shorten_url_fst store url uid ns now with h | h <;> rw [h] at hb
      · rw [List.getElem?_eq_none hi] at hb
        cases hb
      · rw [List.getElem?_append_right hi] at hb
        rcases Nat.eq_or_lt_of_le hi with he | hlt
        · rw [← he, Nat.sub_self] at hb
          cases hb
          rfl
        · rw [List.getElem?_eq_none (by simp; omega)] at hb
          cases hb
  | stats u =>
      rw [apply_op, List.getElem?_eq_none hi] at hb
      cases hb

/-- Requests preserve non-negativity of all counters. -/
theorem apply_op_nonneg (store : Store) (op : Op)
    (h : ∀ l ∈ store, 0 ≤ l.views) : ∀ l ∈ apply_op store op, 0 ≤ l.views := by
  intro l hl
  cases op with
  | enter bu s =>
      rw [apply_op, serve_ad_page_1_fst] at hl
      exact h l hl
  | advance s => exact h l hl
  | resolve s =>
      rw [apply_op] at hl
      rcases get_final_link_fst store s with hc | hc <;> rw [hc] at hl
      · exact h l hl
      · rw [increment_views] at hl
        rcases List.mem_map.mp hl with ⟨x, hx, hfx⟩
        have := h x hx
        by_cases hs : x.slug = s
        · rw [if_pos (by simp [hs])] at hfx
          rw [← hfx]
          show (0 : Int) ≤ x.views + 1
          omega
        · rw [if_neg (by simp [hs])] at hfx
          rw [← hfx]
          exact this
  | shorten url uid ns now =>
      rw [apply_op] at hl
      rcases shorten_url_fst store url uid ns now with hc | hc <;> rw [hc] at hl
      · exact h l hl
      · rcases List.mem_append.mp hl with hm | hm
        · exact h l hm
        · rcases List.mem_singleton.mp hm with rfl
          exact le_refl _
  | stats u => exact h l hl

/-- C4: across any sequence of requests (Enter, Advance, Resolve, shorten,
user_stats), view counters are monotonically non-decreasing on every row
already present, non-negativity of all counters is preserved (links are
created with `views = 0` — the per-request part), and the read-only
requests do not change the store at all. -/
theorem views_monotone_invariant (store : Store) (ops : List Op) :
    store.length ≤ (apply_ops store ops).length ∧
    (∀ (i : Nat) (a b : Link), store[i]? = some a → (apply_ops store ops)[i]? = some b →
      a.views ≤ b.views) ∧
    ((∀ l ∈ store, 0 ≤ l.views) → ∀ l ∈ apply_ops store ops, 0 ≤ l.views) ∧
    (∀ (op : Op) (i : Nat) (b : Link), store.length ≤ i →
      (apply_op store op)[i]? = some b → b.views = 0) := by
  induction ops generalizing store with
  | nil =>
      refine ⟨le_refl _, ?_, fun h => h,
        fun op i b hi hb => apply_op_new_zero store op i b hi hb⟩
      intro i a b ha hb
      have hb2 : store[i]? = some b := hb
      rw [ha] at hb2
      cases hb2
      exact le_refl _
  | cons op ops ih =>
      obtain ⟨ihlen, ihmono, ihnn, _⟩ := ih (apply_op store op)
      have hstep : apply_ops store (op :: ops) = apply_ops (apply_op store op) ops := rfl
      refine ⟨?_, ?_, ?_, fun o i b hi hb => apply_op_new_zero store o i b hi hb⟩
      · rw [hstep]
        exact le_trans (apply_op_length store op) ihlen
      · intro i a b ha hb
        rw [hstep] at hb
        have hlt : i < (apply_op store op).length := by
          rcases List.getElem?_eq_some_iff.mp ha with ⟨hl, _⟩
          exact lt_of_lt_of_le hl (apply_op_length store op)
        have hmid := List.getElem?_eq_getElem hlt
        exact le_trans (apply_op_views_mono store op i a _ ha hmid)
          (ihmono i _ b hmid hb)
      · intro h
        rw [hstep]
        exact ihnn (apply_op_nonneg store op h)

/-- Witness for C4 at a concrete store and request sequence. -/
theorem views_monotone_invariant_witness :
    [Link.mk "a" "https://x.com" "u1" 3 1].length ≤
      (apply_ops [Link.mk "a" "https://x.com" "u1" 3 1]
        [Op.resolve "a", Op.shorten "https://y.com" "u1" "b" 9]).length ∧
    (∀ l ∈ apply_ops [Link.mk "a" "https://x.com" "u1" 3 1]
        [Op.resolve "a", Op.shorten "https://y.com" "u1" "b" 9], 0 ≤ l.views) := by
  obtain ⟨h1, _, h3, _⟩ := views_monotone_invariant [Link.mk "a" "https://x.com" "u1" 3 1]
    [Op.resolve "a", Op.shorten "https://y.com" "u1" "b" 9]
  exact ⟨h1, h3 (by decide)⟩

/-- Rounding an exact integer changes nothing. -/
theorem roundHalfToEven_intCast (m : ℤ) : roundHalfToEven (m : ℚ) = m := by
  have hf : ((m : ℚ)).floor = m := by
    rw [Rat.floor_def']
    simp
  rw [roundHalfToEven, hf]
  norm_num

/-- Rounding an exact integer with `round(x, 2)` changes nothing. -/
theorem pyRound2_intCast (m : ℤ) : pyRound2 (m : ℚ) = (m : ℚ) := by
  rw [pyRound2]
  have h : (m : ℚ) * 100 = ((m * 100 : ℤ) : ℚ) := by push_cast; ring
  rw [h, roundHalfToEven_intCast]
  push_cast
  rw [mul_div_assoc]
  norm_num

/-- The `or 0` coalesce makes the reported total the plain sum of the
view counters of the user, also over an empty set of links. -/
theorem total_views_eq_sum (store : Store) (u : String) :
    (get_user_stats store u).total_views = ((user_links store u).map Link.views).sum := by
  show total_views_of store u = _
  rw [total_views_of, sum_views_sql]
  by_cases he : (user_links store u).isEmpty
  · rw [if_pos he]
    rw [List.isEmpty_iff.mp he]
    rfl
  · rw [if_neg he]

/-- C8: the user_stats endpoint reports earnings equal to (sum of views
over the links of the user) / 1000 at the fixed rate 4.00, rounded to two
decimal places, without touching the store; a user whose views total 2500
is reported earnings of exactly 10.00. -/
theorem user_stats_earnings_formula (store : Store) (u : String) :
    (get_user_stats store u).total_earnings =
      pyRound2 (((((user_links store u).map Link.views).sum : ℚ) / 1000) * 4) ∧
    apply_op store (Op.stats u) = store ∧
    ((get_user_stats store u).total_views = 2500 →
      (get_user_stats store u).total_earnings = 10) := by
  have hte : (get_user_stats store u).total_earnings =
      pyRound2 ((((get_user_stats store u).total_views : ℚ) / 1000) * 4) := rfl
  refine ⟨?_, rfl, ?_⟩
  · rw [hte, total_views_eq_sum]
  · intro h2500
    have harg : ((2500 : Int) : ℚ) / 1000 * 4 = ((10 : Int) : ℚ) := by norm_num
    rw [hte, h2500, harg, pyRound2_intCast]
    norm_num

/-- Witness for C8: one link with 2500 views earns 10.00. -/
theorem user_stats_earnings_formula_witness :
    (get_user_stats [Link.mk "s" "https://x.com" "u9" 2500 1] "u9").total_earnings = 10 :=
  (user_stats_earnings_formula [Link.mk "s" "https://x.com" "u9" 2500 1] "u9").2.2 (by decide)

/-- C10: for a user owning no links, user_stats answers total_views = 0,
total_earnings = 0 and an empty links list instead of failing — the NULL
sum is coalesced to 0 before the earnings computation. -/
theorem user_stats_empty_owner (store : Store) (u : String)
    (h : ∀ l ∈ store, l.user_uid ≠ u) :
    get_user_stats store u = UserStats.mk 0 0 4 0 [] := by
  have hfilter : user_links store u = [] := by
    rw [user_links, List.filter_eq_nil_iff]
    intro l hl
    simp [h l hl]
  have htv : total_views_of store u = 0 := by
    rw [total_views_of, sum_views_sql, hfilter]
    rfl
  rw [get_user_stats, htv, hfilter]
  have harg : ((0 : Int) : ℚ) / 1000 * 4 = ((0 : Int) : ℚ) := by norm_num
  rw [harg, pyRound2_intCast]
  simp

/-- Witness for C10: a store owned entirely by someone else. -/
theorem user_stats_empty_owner_witness :
    get_user_stats [Link.mk "s" "https://x.com" "u1" 44 1] "lonely" = UserStats.mk 0 0 4 0 [] :=
  user_stats_empty_owner [Link.mk "s" "https://x.com" "u1" 44 1] "lonely" (by decide)

end Backend
